import Mathlib

/-!
Verification development for the tokenbound-accounts client SDK
(packages/sdk/src/TokenboundClient.ts and packages/sdk/src/functions/ethers.ts).

Shallow embedding conventions:
* Hex address strings are modelled by `Address`; the deterministic CREATE2-style
  derivation performed by the (off-src) `computeAccount` helper is modelled by the
  injective constructor `Address.derived`, keyed on exactly the inputs the spec
  names (implementation, chain id, token contract, token id, salt, registry).
* ABI-encoded call payloads are modelled by the inductive `CallData`, with one
  injective constructor per contract entry point that the SDK encodes
  (`createAccount(implementation, chainId, tokenContract, tokenId, salt, initData)`,
  the zero-argument `initialize()`, and `executeCall(to, value, data)`), plus
  `CallData.raw` for caller-supplied data passed through unencoded.
* Transaction submission through a backend is not performed; instead every
  submitting operation returns the `Submission` it hands to the backend:
  `Submission.signerSend tx` for `signer.sendTransaction(tx)` and
  `Submission.contractCall dest call` for an ethers `Contract` method call
  (destination contract plus encoded call data) sent via the backend.
* Thrown JavaScript errors become `Except.error` with an `SdkError`
  classifying the error per the taxonomy of the specification; the
  catch-and-rethrow blocks in the source add nothing and are the identity here.
-/

/-- A 20-byte hex address. `lit` is a literal hex string; `derived` is the
address produced by the deterministic CREATE2-style account derivation, keyed on
(implementation address, chain id, token contract, token id, salt, registry). -/
inductive Address where
  | lit : String → Address
  | derived : Address → Int → Address → String → Int → Address → Address
deriving DecidableEq, Repr

/-- A character that may appear after the 0x prefix of a hex address. -/
def isHexChar (c : Char) : Bool :=
  c.isDigit || ('a' ≤ c && c ≤ 'f') || ('A' ≤ c && c ≤ 'F')

/-- Well-formedness of an address: a literal must be a 0x-prefixed 40-hex-digit
string; a derived address is the output of the derivation and always well-formed. -/
def Address.wellFormed : Address → Bool
  | Address.lit s =>
      match s.data with
      | '0' :: 'x' :: rest => (rest.length == 40) && rest.all isHexChar
      | _ => false
  | Address.derived _ _ _ _ _ _ => true

/-- ABI-encoded call data, one injective constructor per entry point the SDK
encodes, plus raw passthrough bytes. `createAccountData` carries
(implementation, chainId, tokenContract, tokenId, salt, initData);
`executeCallData` carries (to, value, data); `initializeData` is the encoded
zero-argument initialize call. -/
inductive CallData where
  | raw : String → CallData
  | initializeData : CallData
  | createAccountData : Address → Int → Address → String → Int → CallData → CallData
  | executeCallData : Address → Int → String → CallData
deriving DecidableEq, Repr

/-- The `{to, value, data}` record returned by the prepare functions and handed
to `sendTransaction`. -/
structure PreparedTransaction where
  «to» : Address
  value : Int
  data : CallData
deriving DecidableEq, Repr

/-- What a submitting operation hands to its backend: either a raw
`sendTransaction` payload, or an ethers `Contract` method call
(destination contract, encoded call) sent via the backend. -/
inductive Submission where
  | signerSend : PreparedTransaction → Submission
  | contractCall : Address → CallData → Submission
deriving DecidableEq, Repr

/-- The network context an ethers provider reports (`getNetwork().chainId`). -/
structure Provider where
  chainId : Int
deriving DecidableEq, Repr

/-- A viem WalletClient / ethers-signer-shaped backend; the lower-level ethers
`createAccount` reads the chain id from its optional provider. -/
structure WalletClient where
  provider : Option Provider
deriving DecidableEq, Repr

/-- An opaque raw Ethers signer capability; only its presence matters to the
dispatch logic, so it is modelled as a tagged value. -/
structure RawSigner where
  id : String
deriving DecidableEq, Repr

/-- Error taxonomy of the specification, plus `errorMessage` for plain thrown
errors outside the taxonomy. -/
inductive SdkError where
  | configurationError : String → SdkError
  | invalidAddressError : String → SdkError
  | noBackendError : String → SdkError
  | backendError : String → SdkError
  | errorMessage : String → SdkError
deriving DecidableEq, Repr

/-- Modelled from the spec: the constants module (packages/sdk/src/constants)
is not under src/. Process-wide default implementation contract address. -/
def erc6551AccountImplementationAddress : Address :=
  Address.lit "0x2D25602551487C3f3354dD80D76D54383A243358"

/-- Modelled from the spec: the constants module (packages/sdk/src/constants)
is not under src/. Process-wide default registry contract address. -/
def erc6551RegistryAddress : Address :=
  Address.lit "0x02101dfB77FDE026414827Fdc604ddAF224F0921"

/-- Modelled from the spec: the viem functions module (imported by the client
from ./functions) is not under src/. Spec 4.2: `computeAccount` is the pure
deterministic CREATE2-style address derivation keyed on implementation address,
chain id, token contract, token id and a constant salt of zero, with the
registry as deployer; implementation and registry default to the process-wide
constants when the overrides are absent; it fails with InvalidAddressError when
`tokenContract` is not a well-formed 20-byte hex address. -/
def Functions.computeAccount (tokenContract : Address) (tokenId : String) (chainId : Int)
    (implementationAddress : Option Address) (registryAddress : Option Address) :
    Except SdkError Address :=
  if tokenContract.wellFormed then
    Except.ok (Address.derived
      (implementationAddress.getD erc6551AccountImplementationAddress)
      chainId tokenContract tokenId 0
      (registryAddress.getD erc6551RegistryAddress))
  else
    Except.error (SdkError.invalidAddressError "tokenContract is not a well-formed address")

/-- Modelled from the spec: the viem functions module (imported by the client
from ./functions) is not under src/. Spec 4.4: `prepareCreateAccount` ABI-encodes
a call to the registry createAccount entry point with arguments
(implementationAddress, chainId, tokenContract, tokenId, salt=0, initData) where
initData is the encoded zero-argument initialize call; destination is the
registry address (override or default); value is 0; addresses default to the
process-wide constants; address well-formedness is the only validation.
The commented-out ethers version of this function that remains in
functions/ethers.ts builds the same payload. -/
def Functions.prepareCreateAccount (tokenContract : Address) (tokenId : String) (chainId : Int)
    (implementationAddress : Option Address) (registryAddress : Option Address) :
    Except SdkError PreparedTransaction :=
  if tokenContract.wellFormed then
    Except.ok ⟨registryAddress.getD erc6551RegistryAddress, 0,
      CallData.createAccountData
        (implementationAddress.getD erc6551AccountImplementationAddress)
        chainId tokenContract tokenId 0 CallData.initializeData⟩
  else
    Except.error (SdkError.invalidAddressError "tokenContract is not a well-formed address")

/-- Modelled from the spec: the viem functions module (imported by the client
from ./functions) is not under src/. Spec 4.4: `prepareExecuteCall` ABI-encodes a
call to the executeCall entry point of the account itself with arguments
(to, value, data); destination is `account`; value is passed through unchanged;
address well-formedness is the only validation. -/
def Functions.prepareExecuteCall (account : Address) («to» : Address) (value : Int)
    (data : String) : Except SdkError PreparedTransaction :=
  if account.wellFormed then
    Except.ok ⟨account, value, CallData.executeCallData «to» value data⟩
  else
    Except.error (SdkError.invalidAddressError "account is not a well-formed address")

/-- Lower-level `createAccount` from packages/sdk/src/functions/ethers.ts
(lines 52-79): builds an ethers Contract for the default registry address with
the supplied backend, throws when the backend has no provider, resolves the
chain id from the provider network, encodes the zero-argument initialize call,
and submits `registry.createAccount(defaultImplementation, chainId,
tokenContract, tokenId, 0, initData)`. The client passes its wallet client
where this function expects an ethers signer. -/
def Functions.createAccount (tokenContract : Address) (tokenId : String)
    (signer : WalletClient) : Except SdkError Submission :=
  match signer.provider with
  | none => Except.error (SdkError.errorMessage "Signer has no provider")
  | some provider =>
      Except.ok (Submission.contractCall erc6551RegistryAddress
        (CallData.createAccountData erc6551AccountImplementationAddress provider.chainId
          tokenContract tokenId 0 CallData.initializeData))

/-- Lower-level `executeCall` from packages/sdk/src/functions/ethers.ts
(lines 85-103): builds an ethers Contract for the account address with the
supplied backend and submits `accountContract.executeCall(to, value, data)`.
The console logging in the source has no effect on the result and is omitted. -/
def Functions.executeCall (account : Address) («to» : Address) (value : Int) (data : String)
    (signer : WalletClient) : Except SdkError Submission :=
  Except.ok (Submission.contractCall account (CallData.executeCallData «to» value data))

/-- Client-level override of the default implementation and registry addresses. -/
structure Custom6551Implementation where
  implementationAddress : Address
  registryAddress : Address
deriving DecidableEq, Repr

/-- Construction options of TokenboundClient. `chainId` is an `Option` so the
missing-versus-zero distinction of the construction check is representable. -/
structure TokenboundClientOptions where
  chainId : Option Int
  signer : Option RawSigner
  walletClient : Option WalletClient
  customImplementation : Option Custom6551Implementation
deriving DecidableEq, Repr

/-- Parameters of getAccount: TBAccountParams plus the optional per-call
implementation and registry overrides (Partial Custom6551Implementation). -/
structure GetAccountParams where
  tokenContract : Address
  tokenId : String
  implementationAddress : Option Address
  registryAddress : Option Address
deriving DecidableEq, Repr

/-- PrepareCreateAccountParams has the same shape as GetAccountParams. -/
abbrev PrepareCreateAccountParams := GetAccountParams

/-- CreateAccountParams has the same shape as GetAccountParams. -/
abbrev CreateAccountParams := GetAccountParams

/-- Parameters of executeCall: the account, the inner target, value and data. -/
structure ExecuteCallParams where
  account : Address
  «to» : Address
  value : Int
  data : String
deriving DecidableEq, Repr

/-- PrepareExecuteCallParams has the same shape as ExecuteCallParams. -/
abbrev PrepareExecuteCallParams := ExecuteCallParams

/-- The state of a constructed TokenboundClient: the fields assigned by the
constructor (TokenboundClient.ts lines 56-87). -/
structure TokenboundClient where
  chainId : Int
  isInitialized : Bool
  signer : Option RawSigner
  walletClient : Option WalletClient
  customImplementation : Option Custom6551Implementation
deriving DecidableEq, Repr

/-- The constructor (TokenboundClient.ts lines 63-87): throws when chainId is
falsy (missing or zero), throws when both signer and walletClient are supplied,
otherwise records chainId, binds the signer if present else the wallet client
if present, records customImplementation if present, and sets isInitialized. -/
def TokenboundClient.construct (options : TokenboundClientOptions) :
    Except SdkError TokenboundClient :=
  if (match options.chainId with | none => true | some c => c == 0) then
    Except.error (SdkError.configurationError "chainId is required.")
  else if options.signer.isSome && options.walletClient.isSome then
    Except.error (SdkError.configurationError
      "Only one of `signer` or `walletClient` should be provided.")
  else
    Except.ok ⟨options.chainId.getD 0, true, options.signer,
      (if options.signer.isSome then none else options.walletClient),
      options.customImplementation⟩

/-- Tests whether a construction attempt failed with a ConfigurationError. -/
def isConfigurationFailure : Except SdkError TokenboundClient → Bool
  | Except.error (SdkError.configurationError _) => true
  | _ => false

/-- Tests whether an operation succeeded. -/
def exceptOk {α : Type} : Except SdkError α → Bool
  | Except.ok _ => true
  | Except.error _ => false

/-- getAccount (TokenboundClient.ts lines 98-109): resolves the implementation
as `this.customImplementation?.implementationAddress || implementationAddress`
and calls computeAccount with the client chain id; the catch block rethrows
unchanged. -/
def TokenboundClient.getAccount (c : TokenboundClient) (params : GetAccountParams) :
    Except SdkError Address :=
  let implementation : Option Address :=
    match c.customImplementation with
    | some ci => some ci.implementationAddress
    | none => params.implementationAddress
  Functions.computeAccount params.tokenContract params.tokenId c.chainId
    implementation params.registryAddress

/-- prepareCreateAccount (TokenboundClient.ts lines 119-128): resolves the
implementation the same way and delegates to the lower-level
prepareCreateAccount with the client chain id. -/
def TokenboundClient.prepareCreateAccount (c : TokenboundClient)
    (params : PrepareCreateAccountParams) : Except SdkError PreparedTransaction :=
  let implementation : Option Address :=
    match c.customImplementation with
    | some ci => some ci.implementationAddress
    | none => params.implementationAddress
  Functions.prepareCreateAccount params.tokenContract params.tokenId c.chainId
    implementation params.registryAddress

/-- createAccount (TokenboundClient.ts lines 138-159): resolves the
implementation, then, with a signer bound, prepares the create-account
transaction (passing the resolved implementation and the per-call registry
override through) and hands it to signer.sendTransaction; with a wallet client
bound, delegates to the lower-level ethers createAccount; with neither, throws
the no-backend error. The catch block rethrows unchanged. -/
def TokenboundClient.createAccount (c : TokenboundClient) (params : CreateAccountParams) :
    Except SdkError Submission :=
  let implementation : Option Address :=
    match c.customImplementation with
    | some ci => some ci.implementationAddress
    | none => params.implementationAddress
  match c.signer with
  | some _ =>
      match c.prepareCreateAccount
          ⟨params.tokenContract, params.tokenId, implementation, params.registryAddress⟩ with
      | Except.ok tx => Except.ok (Submission.signerSend tx)
      | Except.error e => Except.error e
  | none =>
      match c.walletClient with
      | some walletClient =>
          Functions.createAccount params.tokenContract params.tokenId walletClient
      | none => Except.error (SdkError.noBackendError "No wallet client or signer available.")

/-- prepareExecuteCall (TokenboundClient.ts lines 169-176): delegates to the
lower-level prepareExecuteCall. -/
def TokenboundClient.prepareExecuteCall (c : TokenboundClient)
    (params : PrepareExecuteCallParams) : Except SdkError PreparedTransaction :=
  Functions.prepareExecuteCall params.account params.«to» params.value params.data

/-- executeCall (TokenboundClient.ts lines 186-206): with a signer bound, hands
`{to: to, value: value, data: data}` directly to signer.sendTransaction (the
`account` parameter is unused in this branch); with a wallet client bound,
delegates to the lower-level ethers executeCall; with neither, throws the
no-backend error. The catch block rethrows unchanged. -/
def TokenboundClient.executeCall (c : TokenboundClient) (params : ExecuteCallParams) :
    Except SdkError Submission :=
  match c.signer with
  | some _ =>
      Except.ok (Submission.signerSend ⟨params.«to», params.value, CallData.raw params.data⟩)
  | none =>
      match c.walletClient with
      | some walletClient =>
          Functions.executeCall params.account params.«to» params.value params.data walletClient
      | none => Except.error (SdkError.noBackendError "No wallet client or signer available.")

/-- One invocation of a public client operation, for stating frame properties
over the whole public surface. -/
inductive ClientOp where
  | doGetAccount : GetAccountParams → ClientOp
  | doPrepareCreateAccount : PrepareCreateAccountParams → ClientOp
  | doCreateAccount : CreateAccountParams → ClientOp
  | doPrepareExecuteCall : PrepareExecuteCallParams → ClientOp
  | doExecuteCall : ExecuteCallParams → ClientOp
deriving DecidableEq, Repr

/-- The result of one public client operation. -/
inductive ClientResult where
  | addr : Except SdkError Address → ClientResult
  | tx : Except SdkError PreparedTransaction → ClientResult
  | sub : Except SdkError Submission → ClientResult
deriving Repr

/-- State-passing form of the five public methods: the pair holds the result of
the call and the client state after it. No method body in TokenboundClient.ts
(lines 98-206) assigns to any field of `this`, so the post-state of each
faithful translation is the receiver unchanged. -/
def TokenboundClient.run (c : TokenboundClient) (op : ClientOp) :
    ClientResult × TokenboundClient :=
  match op with
  | ClientOp.doGetAccount p => (ClientResult.addr (c.getAccount p), c)
  | ClientOp.doPrepareCreateAccount p => (ClientResult.tx (c.prepareCreateAccount p), c)
  | ClientOp.doCreateAccount p => (ClientResult.sub (c.createAccount p), c)
  | ClientOp.doPrepareExecuteCall p => (ClientResult.tx (c.prepareExecuteCall p), c)
  | ClientOp.doExecuteCall p => (ClientResult.sub (c.executeCall p), c)

/-- The implementation-address resolution the client code performs, written out
as its own definition for comparison in the precedence theorems: the
client-level customImplementation wins, the per-call override is used only when
no customImplementation is configured, and the process-wide default constant
only when neither is supplied. -/
def resolvedImplementationAddress (c : TokenboundClient) (perCall : Option Address) :
    Address :=
  match c.customImplementation with
  | some ci => ci.implementationAddress
  | none => perCall.getD erc6551AccountImplementationAddress

/-- Concrete well-formed address used as a token contract in witnesses. -/
def addrA : Address := Address.lit "0xaaaaaaaaaaaaaaaaaaaaaaaaaaaaaaaaaaaaaaaa"

/-- Concrete well-formed address used as an inner call target in witnesses. -/
def addrB : Address := Address.lit "0xbbbbbbbbbbbbbbbbbbbbbbbbbbbbbbbbbbbbbbbb"

/-- Concrete well-formed address used as a custom implementation in witnesses. -/
def addrC : Address := Address.lit "0xcccccccccccccccccccccccccccccccccccccccc"

/-- Concrete well-formed address used as a custom registry in witnesses. -/
def addrD : Address := Address.lit "0xdddddddddddddddddddddddddddddddddddddddd"

/-- Concrete well-formed address used as a per-call implementation override. -/
def addrE : Address := Address.lit "0xeeeeeeeeeeeeeeeeeeeeeeeeeeeeeeeeeeeeeeee"

/-- Concrete well-formed address used as a per-call registry override. -/
def addrF : Address := Address.lit "0xffffffffffffffffffffffffffffffffffffffff"

/-- Concrete well-formed address used as a second per-call registry override. -/
def addr9 : Address := Address.lit "0x9999999999999999999999999999999999999999"

/-- Helper: with neither backend supplied and a nonzero chain id, the
constructor succeeds and binds no backend. -/
theorem construct_no_backend (options : TokenboundClientOptions) (k : Int)
    (hs : options.signer = none) (hw : options.walletClient = none)
    (hc : options.chainId = some k) (hk : k ≠ 0) :
    TokenboundClient.construct options =
      Except.ok ⟨k, true, none, none, options.customImplementation⟩ := by
  simp [TokenboundClient.construct, hc, hs, hw, hk]

/-- Helper: createAccount on a client with no backend bound throws the
no-backend error. -/
theorem createAccount_no_backend (c : TokenboundClient)
    (hs : c.signer = none) (hw : c.walletClient = none) (p : CreateAccountParams) :
    c.createAccount p =
      Except.error (SdkError.noBackendError "No wallet client or signer available.") := by
  simp [TokenboundClient.createAccount, hs, hw]

/-- Helper: executeCall on a client with no backend bound throws the
no-backend error. -/
theorem executeCall_no_backend (c : TokenboundClient)
    (hs : c.signer = none) (hw : c.walletClient = none) (p : ExecuteCallParams) :
    c.executeCall p =
      Except.error (SdkError.noBackendError "No wallet client or signer available.") := by
  simp [TokenboundClient.executeCall, hs, hw]

/-- Helper: getAccount succeeds on any client for a well-formed token
contract. -/
theorem getAccount_ok (c : TokenboundClient) (p : GetAccountParams)
    (h : p.tokenContract.wellFormed = true) :
    exceptOk (c.getAccount p) = true := by
  cases hci : c.customImplementation <;>
    simp [TokenboundClient.getAccount, Functions.computeAccount, hci, h, exceptOk]

/-- Helper: prepareCreateAccount succeeds on any client for a well-formed token
contract. -/
theorem prepareCreateAccount_ok (c : TokenboundClient) (p : PrepareCreateAccountParams)
    (h : p.tokenContract.wellFormed = true) :
    exceptOk (c.prepareCreateAccount p) = true := by
  cases hci : c.customImplementation <;>
    simp [TokenboundClient.prepareCreateAccount, Functions.prepareCreateAccount, hci, h, exceptOk]

/-- Helper: prepareExecuteCall succeeds on any client for a well-formed
account address. -/
theorem prepareExecuteCall_ok (c : TokenboundClient) (p : PrepareExecuteCallParams)
    (h : p.account.wellFormed = true) :
    exceptOk (c.prepareExecuteCall p) = true := by
  simp [TokenboundClient.prepareExecuteCall, Functions.prepareExecuteCall, h, exceptOk]

deriving instance DecidableEq for Except

/-- C1: on a client with a raw signer bound, executeCall hands the signer a
transaction whose destination is the inner `to` parameter with the raw caller
data unencoded, instead of the prepared execute-call transaction targeting
`account` with the ABI-encoded executeCall(to, value, data) payload that
prepareExecuteCall builds for the very same arguments. -/
theorem executeCall_signer_branch_bypasses_account :
    TokenboundClient.executeCall ⟨1, true, some ⟨"signer"⟩, none, none⟩
        ⟨addrA, addrB, 5, "0xabcdef"⟩
      = Except.ok (Submission.signerSend ⟨addrB, 5, CallData.raw "0xabcdef"⟩)
    ∧ addrB ≠ addrA
    ∧ Submission.signerSend ⟨addrB, 5, CallData.raw "0xabcdef"⟩
        ≠ Submission.signerSend ⟨addrA, 5, CallData.executeCallData addrB 5 "0xabcdef"⟩
    ∧ Functions.prepareExecuteCall addrA addrB 5 "0xabcdef"
        = Except.ok ⟨addrA, 5, CallData.executeCallData addrB 5 "0xabcdef"⟩ := by
  refine ⟨rfl, by decide, by decide, by decide⟩

/-- C6: counterexample. Constructing a client with neither signer nor wallet
client bound is not a construction-time error: the constructor returns an
initialized client with no backend bound. -/
theorem construct_without_backend_succeeds_cex :
    TokenboundClient.construct ⟨some 1, none, none, none⟩
      = Except.ok ⟨1, true, none, none, none⟩ := by decide

/-- C6 amended: constructing a client with neither signer nor walletClient
succeeds (given a nonzero chain id); the failure is deferred to call time,
where createAccount and executeCall fail with the no-backend error. -/
theorem construct_without_backend_lazy_failure
    (options : TokenboundClientOptions) (k : Int)
    (hs : options.signer = none) (hw : options.walletClient = none)
    (hc : options.chainId = some k) (hk : k ≠ 0) :
    TokenboundClient.construct options =
      Except.ok ⟨k, true, none, none, options.customImplementation⟩
    ∧ (∀ p : CreateAccountParams,
        TokenboundClient.createAccount ⟨k, true, none, none, options.customImplementation⟩ p
          = Except.error (SdkError.noBackendError "No wallet client or signer available."))
    ∧ (∀ p : ExecuteCallParams,
        TokenboundClient.executeCall ⟨k, true, none, none, options.customImplementation⟩ p
          = Except.error (SdkError.noBackendError "No wallet client or signer available.")) :=
  ⟨construct_no_backend options k hs hw hc hk,
   fun p => createAccount_no_backend _ rfl rfl p,
   fun p => executeCall_no_backend _ rfl rfl p⟩

/-- C6 amended, witness at a concrete configuration. -/
theorem construct_without_backend_lazy_failure_witness :
    TokenboundClient.construct ⟨some 2, none, none, none⟩
      = Except.ok ⟨2, true, none, none, none⟩
    ∧ TokenboundClient.createAccount ⟨2, true, none, none, none⟩ ⟨addrA, "2", none, none⟩
      = Except.error (SdkError.noBackendError "No wallet client or signer available.")
    ∧ TokenboundClient.executeCall ⟨2, true, none, none, none⟩ ⟨addrA, addrB, 1, "0x"⟩
      = Except.error (SdkError.noBackendError "No wallet client or signer available.") := by
  have H := construct_without_backend_lazy_failure ⟨some 2, none, none, none⟩ 2
    rfl rfl rfl (by decide)
  exact ⟨H.1, H.2.1 ⟨addrA, "2", none, none⟩, H.2.2 ⟨addrA, addrB, 1, "0x"⟩⟩

/-- C7: constructing a client with both a signer and a wallet client supplied
always fails with a ConfigurationError, whatever the other options are. -/
theorem construct_both_backends_configuration_error
    (options : TokenboundClientOptions) (s : RawSigner) (w : WalletClient)
    (hs : options.signer = some s) (hw : options.walletClient = some w) :
    isConfigurationFailure (TokenboundClient.construct options) = true := by
  cases hc : options.chainId with
  | none => simp [TokenboundClient.construct, hc, isConfigurationFailure]
  | some k =>
    by_cases hk : k = 0
    · simp [TokenboundClient.construct, hc, hk, isConfigurationFailure]
    · simp [TokenboundClient.construct, hc, hk, hs, hw, isConfigurationFailure]

/-- C7 witness at a concrete configuration with both backends supplied. -/
theorem construct_both_backends_configuration_error_witness :
    isConfigurationFailure (TokenboundClient.construct
      ⟨some 1, some ⟨"signer"⟩, some ⟨none⟩, none⟩) = true :=
  construct_both_backends_configuration_error
    ⟨some 1, some ⟨"signer"⟩, some ⟨none⟩, none⟩ ⟨"signer"⟩ ⟨none⟩ rfl rfl

/-- C8: construction fails with the chainId ConfigurationError exactly when
chainId is missing or zero, and succeeds for any nonzero chainId as long as the
remaining options are valid (not both backends supplied). -/
theorem construct_chainId_validation (options : TokenboundClientOptions) :
    ((options.chainId = none ∨ options.chainId = some 0) →
      TokenboundClient.construct options =
        Except.error (SdkError.configurationError "chainId is required."))
    ∧ (∀ k : Int, options.chainId = some k → k ≠ 0 →
        (options.signer = none ∨ options.walletClient = none) →
        exceptOk (TokenboundClient.construct options) = true) := by
  constructor
  · rintro (hc | hc) <;> simp [TokenboundClient.construct, hc]
  · rintro k hc hk (hb | hb) <;>
      simp [TokenboundClient.construct, hc, hk, hb, exceptOk]

/-- C8 witness: missing chainId fails, zero chainId fails, nonzero chainId with
valid remaining options succeeds. -/
theorem construct_chainId_validation_witness :
    TokenboundClient.construct ⟨none, none, none, none⟩
      = Except.error (SdkError.configurationError "chainId is required.")
    ∧ TokenboundClient.construct ⟨some 0, some ⟨"signer"⟩, none, none⟩
      = Except.error (SdkError.configurationError "chainId is required.")
    ∧ exceptOk (TokenboundClient.construct ⟨some 7, some ⟨"signer"⟩, none, none⟩) = true :=
  ⟨(construct_chainId_validation ⟨none, none, none, none⟩).1 (Or.inl rfl),
   (construct_chainId_validation ⟨some 0, some ⟨"signer"⟩, none, none⟩).1 (Or.inr rfl),
   (construct_chainId_validation ⟨some 7, some ⟨"signer"⟩, none, none⟩).2 7 rfl
     (by decide) (Or.inr rfl)⟩

/-- C10: no public operation mutates client state: the post-state of every
public call equals the receiver, and in particular the chainId, isInitialized,
signer, walletClient and customImplementation fields are unchanged, whether
the call succeeds or fails. -/
theorem public_operations_do_not_mutate_client (c : TokenboundClient) (op : ClientOp) :
    (c.run op).2 = c ∧ (c.run op).2.chainId = c.chainId
    ∧ (c.run op).2.isInitialized = c.isInitialized
    ∧ (c.run op).2.signer = c.signer
    ∧ (c.run op).2.walletClient = c.walletClient
    ∧ (c.run op).2.customImplementation = c.customImplementation := by
  cases op <;> exact ⟨rfl, rfl, rfl, rfl, rfl, rfl⟩

/-- C2: counterexample. On a client constructed with a customImplementation,
a per-call implementationAddress does not take precedence: getAccount derives
the account from the client-level implementation address, not the per-call one. -/
theorem getAccount_custom_overrides_per_call_cex :
    TokenboundClient.getAccount ⟨1, true, some ⟨"signer"⟩, none, some ⟨addrC, addrD⟩⟩
        ⟨addrA, "7", some addrE, none⟩
      = Except.ok (Address.derived addrC 1 addrA "7" 0 erc6551RegistryAddress)
    ∧ addrC ≠ addrE
    ∧ Address.derived addrC 1 addrA "7" 0 erc6551RegistryAddress
        ≠ Address.derived addrE 1 addrA "7" 0 erc6551RegistryAddress := by
  refine ⟨by decide, by decide, by decide⟩

/-- C2 amended: the precedence is client-level customImplementation over the
per-call implementationAddress over the process-wide default constant
(`resolvedImplementationAddress` spells this order out); getAccount,
prepareCreateAccount and the signer branch of createAccount all use the
implementation address resolved this way, while the per-call registryAddress
override is threaded through with the default as fallback. -/
theorem implementation_precedence_custom_over_per_call
    (c : TokenboundClient) (p : GetAccountParams)
    (h : p.tokenContract.wellFormed = true) :
    c.getAccount p = Except.ok (Address.derived
        (resolvedImplementationAddress c p.implementationAddress) c.chainId
        p.tokenContract p.tokenId 0 (p.registryAddress.getD erc6551RegistryAddress))
    ∧ c.prepareCreateAccount p = Except.ok
        ⟨p.registryAddress.getD erc6551RegistryAddress, 0,
         CallData.createAccountData (resolvedImplementationAddress c p.implementationAddress)
           c.chainId p.tokenContract p.tokenId 0 CallData.initializeData⟩
    ∧ (∀ s : RawSigner, c.signer = some s →
        c.createAccount p = Except.ok (Submission.signerSend
          ⟨p.registryAddress.getD erc6551RegistryAddress, 0,
           CallData.createAccountData (resolvedImplementationAddress c p.implementationAddress)
             c.chainId p.tokenContract p.tokenId 0 CallData.initializeData⟩)) := by
  refine ⟨?_, ?_, ?_⟩
  · cases hci : c.customImplementation <;>
      simp [TokenboundClient.getAccount, Functions.computeAccount, hci, h,
        resolvedImplementationAddress]
  · cases hci : c.customImplementation <;>
      simp [TokenboundClient.prepareCreateAccount, Functions.prepareCreateAccount, hci, h,
        resolvedImplementationAddress]
  · intro s hs
    cases hci : c.customImplementation <;>
      simp [TokenboundClient.createAccount, TokenboundClient.prepareCreateAccount,
        Functions.prepareCreateAccount, hs, hci, h, resolvedImplementationAddress]

/-- C2 amended, witness: with customImplementation (addrC, addrD), per-call
implementation addrE and per-call registry addrF, the derivation uses addrC and
destination addrF. -/
theorem implementation_precedence_custom_over_per_call_witness :
    TokenboundClient.getAccount ⟨1, true, some ⟨"signer"⟩, none, some ⟨addrC, addrD⟩⟩
        ⟨addrA, "7", some addrE, some addrF⟩
      = Except.ok (Address.derived addrC 1 addrA "7" 0 addrF)
    ∧ TokenboundClient.createAccount ⟨1, true, some ⟨"signer"⟩, none, some ⟨addrC, addrD⟩⟩
        ⟨addrA, "7", some addrE, some addrF⟩
      = Except.ok (Submission.signerSend ⟨addrF, 0,
          CallData.createAccountData addrC 1 addrA "7" 0 CallData.initializeData⟩) := by
  have H := implementation_precedence_custom_over_per_call
    ⟨1, true, some ⟨"signer"⟩, none, some ⟨addrC, addrD⟩⟩
    ⟨addrA, "7", some addrE, some addrF⟩ (by decide)
  exact ⟨H.1, H.2.2 ⟨"signer"⟩ rfl⟩

/-- C3: counterexample. With a customImplementation bound and no per-call
overrides, the registry address used is the process-wide default constant, not
the registryAddress of the customImplementation: the derivation carries the
default registry and the prepared transaction targets the default registry. -/
theorem custom_registry_ignored_cex :
    TokenboundClient.getAccount ⟨1, true, some ⟨"signer"⟩, none, some ⟨addrC, addrD⟩⟩
        ⟨addrA, "9", none, none⟩
      = Except.ok (Address.derived addrC 1 addrA "9" 0 erc6551RegistryAddress)
    ∧ TokenboundClient.prepareCreateAccount
        ⟨1, true, some ⟨"signer"⟩, none, some ⟨addrC, addrD⟩⟩ ⟨addrA, "9", none, none⟩
      = Except.ok ⟨erc6551RegistryAddress, 0,
          CallData.createAccountData addrC 1 addrA "9" 0 CallData.initializeData⟩
    ∧ erc6551RegistryAddress ≠ addrD := by
  refine ⟨by decide, by decide, by decide⟩

/-- C3 amended: with a customImplementation bound and no per-call overrides,
the implementation address used by getAccount, prepareCreateAccount and the
signer branch of createAccount is the customImplementation one, but the
registry address is the process-wide default constant; the registryAddress field
of customImplementation is never consulted. -/
theorem custom_implementation_registry_falls_back_to_default
    (c : TokenboundClient) (ci : Custom6551Implementation) (p : GetAccountParams)
    (hci : c.customImplementation = some ci)
    (hpi : p.implementationAddress = none) (hpr : p.registryAddress = none)
    (h : p.tokenContract.wellFormed = true) :
    c.getAccount p = Except.ok (Address.derived ci.implementationAddress c.chainId
        p.tokenContract p.tokenId 0 erc6551RegistryAddress)
    ∧ c.prepareCreateAccount p = Except.ok ⟨erc6551RegistryAddress, 0,
        CallData.createAccountData ci.implementationAddress c.chainId p.tokenContract
          p.tokenId 0 CallData.initializeData⟩
    ∧ (∀ s : RawSigner, c.signer = some s →
        c.createAccount p = Except.ok (Submission.signerSend ⟨erc6551RegistryAddress, 0,
          CallData.createAccountData ci.implementationAddress c.chainId p.tokenContract
            p.tokenId 0 CallData.initializeData⟩)) := by
  refine ⟨?_, ?_, ?_⟩
  · simp [TokenboundClient.getAccount, Functions.computeAccount, hci, hpr, h]
  · simp [TokenboundClient.prepareCreateAccount, Functions.prepareCreateAccount, hci, hpr, h]
  · intro s hs
    simp [TokenboundClient.createAccount, TokenboundClient.prepareCreateAccount,
      Functions.prepareCreateAccount, hs, hci, hpr, h]

/-- C3 amended, witness at a concrete client and token. -/
theorem custom_implementation_registry_falls_back_to_default_witness :
    TokenboundClient.getAccount ⟨1, true, some ⟨"signer"⟩, none, some ⟨addrC, addrD⟩⟩
        ⟨addrB, "11", none, none⟩
      = Except.ok (Address.derived addrC 1 addrB "11" 0 erc6551RegistryAddress)
    ∧ TokenboundClient.prepareCreateAccount
        ⟨1, true, some ⟨"signer"⟩, none, some ⟨addrC, addrD⟩⟩ ⟨addrB, "11", none, none⟩
      = Except.ok ⟨erc6551RegistryAddress, 0,
          CallData.createAccountData addrC 1 addrB "11" 0 CallData.initializeData⟩
    ∧ TokenboundClient.createAccount
        ⟨1, true, some ⟨"signer"⟩, none, some ⟨addrC, addrD⟩⟩ ⟨addrB, "11", none, none⟩
      = Except.ok (Submission.signerSend ⟨erc6551RegistryAddress, 0,
          CallData.createAccountData addrC 1 addrB "11" 0 CallData.initializeData⟩) := by
  have H := custom_implementation_registry_falls_back_to_default
    ⟨1, true, some ⟨"signer"⟩, none, some ⟨addrC, addrD⟩⟩ ⟨addrC, addrD⟩
    ⟨addrB, "11", none, none⟩ rfl rfl rfl (by decide)
  exact ⟨H.1, H.2.1, H.2.2 ⟨"signer"⟩ rfl⟩

/-- C4: with neither signer nor walletClient supplied and a nonzero chainId,
construction succeeds; on the resulting client createAccount and executeCall
fail with the no-backend error for every input, while getAccount,
prepareCreateAccount and prepareExecuteCall succeed for every input with a
well-formed address (no backend is consulted by the pure operations). -/
theorem no_backend_lazy_failure (options : TokenboundClientOptions) (k : Int)
    (hs : options.signer = none) (hw : options.walletClient = none)
    (hc : options.chainId = some k) (hk : k ≠ 0) :
    TokenboundClient.construct options =
      Except.ok ⟨k, true, none, none, options.customImplementation⟩
    ∧ (∀ p : CreateAccountParams,
        TokenboundClient.createAccount ⟨k, true, none, none, options.customImplementation⟩ p
          = Except.error (SdkError.noBackendError "No wallet client or signer available."))
    ∧ (∀ p : ExecuteCallParams,
        TokenboundClient.executeCall ⟨k, true, none, none, options.customImplementation⟩ p
          = Except.error (SdkError.noBackendError "No wallet client or signer available."))
    ∧ (∀ p : GetAccountParams, p.tokenContract.wellFormed = true →
        exceptOk (TokenboundClient.getAccount
          ⟨k, true, none, none, options.customImplementation⟩ p) = true)
    ∧ (∀ p : PrepareCreateAccountParams, p.tokenContract.wellFormed = true →
        exceptOk (TokenboundClient.prepareCreateAccount
          ⟨k, true, none, none, options.customImplementation⟩ p) = true)
    ∧ (∀ p : PrepareExecuteCallParams, p.account.wellFormed = true →
        exceptOk (TokenboundClient.prepareExecuteCall
          ⟨k, true, none, none, options.customImplementation⟩ p) = true) :=
  ⟨construct_no_backend options k hs hw hc hk,
   fun p => createAccount_no_backend _ rfl rfl p,
   fun p => executeCall_no_backend _ rfl rfl p,
   fun p h => getAccount_ok _ p h,
   fun p h => prepareCreateAccount_ok _ p h,
   fun p h => prepareExecuteCall_ok _ p h⟩

/-- C4 witness at a concrete backend-less client. -/
theorem no_backend_lazy_failure_witness :
    TokenboundClient.construct ⟨some 1, none, none, none⟩
      = Except.ok ⟨1, true, none, none, none⟩
    ∧ TokenboundClient.createAccount ⟨1, true, none, none, none⟩ ⟨addrA, "1", none, none⟩
      = Except.error (SdkError.noBackendError "No wallet client or signer available.")
    ∧ TokenboundClient.executeCall ⟨1, true, none, none, none⟩ ⟨addrA, addrB, 0, "0x"⟩
      = Except.error (SdkError.noBackendError "No wallet client or signer available.")
    ∧ exceptOk (TokenboundClient.getAccount ⟨1, true, none, none, none⟩
        ⟨addrA, "1", none, none⟩) = true
    ∧ exceptOk (TokenboundClient.prepareCreateAccount ⟨1, true, none, none, none⟩
        ⟨addrA, "1", none, none⟩) = true
    ∧ exceptOk (TokenboundClient.prepareExecuteCall ⟨1, true, none, none, none⟩
        ⟨addrA, addrB, 0, "0x"⟩) = true := by
  have H := no_backend_lazy_failure ⟨some 1, none, none, none⟩ 1 rfl rfl rfl (by decide)
  exact ⟨H.1, H.2.1 ⟨addrA, "1", none, none⟩, H.2.2.1 ⟨addrA, addrB, 0, "0x"⟩,
    H.2.2.2.1 ⟨addrA, "1", none, none⟩ (by decide),
    H.2.2.2.2.1 ⟨addrA, "1", none, none⟩ (by decide),
    H.2.2.2.2.2 ⟨addrA, addrB, 0, "0x"⟩ (by decide)⟩

/-- C5: on a client with a walletClient bound (and no signer), createAccount
delegates to the lower-level ethers createAccount, which resolves the chain id
from the provider of the backend and always submits
createAccount(defaultImplementation, providerChainId, tokenContract, tokenId,
0, initData) to the default registry: the per-call overrides, the client-level
customImplementation and the client chainId do not occur in the submission. -/
theorem createAccount_wallet_branch_uses_defaults
    (c : TokenboundClient) (p : CreateAccountParams) (wc : WalletClient) (prov : Provider)
    (hs : c.signer = none) (hw : c.walletClient = some wc) (hp : wc.provider = some prov) :
    c.createAccount p = Except.ok (Submission.contractCall erc6551RegistryAddress
      (CallData.createAccountData erc6551AccountImplementationAddress prov.chainId
        p.tokenContract p.tokenId 0 CallData.initializeData)) := by
  cases hci : c.customImplementation <;>
    simp [TokenboundClient.createAccount, Functions.createAccount, hs, hw, hp, hci]

/-- C5 witness: a client with chainId 1, customImplementation and per-call
overrides set still submits with the defaults and the provider chain id 5. -/
theorem createAccount_wallet_branch_uses_defaults_witness :
    TokenboundClient.createAccount ⟨1, true, none, some ⟨some ⟨5⟩⟩, some ⟨addrC, addrD⟩⟩
        ⟨addrA, "9", some addrE, some addrF⟩
      = Except.ok (Submission.contractCall erc6551RegistryAddress
          (CallData.createAccountData erc6551AccountImplementationAddress 5 addrA "9" 0
            CallData.initializeData)) :=
  createAccount_wallet_branch_uses_defaults
    ⟨1, true, none, some ⟨some ⟨5⟩⟩, some ⟨addrC, addrD⟩⟩
    ⟨addrA, "9", some addrE, some addrF⟩ ⟨some ⟨5⟩⟩ ⟨5⟩ rfl rfl rfl

/-- C9: counterexample. In the signer branch of createAccount the per-call
registryAddress is not ignored: it is threaded into the preparation call, and
two calls differing only in registryAddress hand the signer different
transactions (their destinations are the two registries). -/
theorem createAccount_signer_registry_override_threaded_cex :
    TokenboundClient.createAccount ⟨1, true, some ⟨"signer"⟩, none, none⟩
        ⟨addrA, "3", none, some addrF⟩
      = Except.ok (Submission.signerSend ⟨addrF, 0,
          CallData.createAccountData erc6551AccountImplementationAddress 1 addrA "3" 0
            CallData.initializeData⟩)
    ∧ TokenboundClient.createAccount ⟨1, true, some ⟨"signer"⟩, none, none⟩
        ⟨addrA, "3", none, some addr9⟩
      = Except.ok (Submission.signerSend ⟨addr9, 0,
          CallData.createAccountData erc6551AccountImplementationAddress 1 addrA "3" 0
            CallData.initializeData⟩)
    ∧ Submission.signerSend ⟨addrF, 0,
          CallData.createAccountData erc6551AccountImplementationAddress 1 addrA "3" 0
            CallData.initializeData⟩
        ≠ Submission.signerSend ⟨addr9, 0,
          CallData.createAccountData erc6551AccountImplementationAddress 1 addrA "3" 0
            CallData.initializeData⟩ := by
  refine ⟨by decide, by decide, by decide⟩

/-- C9 amended: the signer branch of createAccount honors the per-call
registryAddress override: the transaction handed to the signer targets the
overridden registry (with the implementation resolved by the
customImplementation-first rule), so calls differing in registryAddress submit
different transactions. -/
theorem createAccount_signer_branch_honors_registry_override
    (c : TokenboundClient) (p : CreateAccountParams) (r : Address) (s : RawSigner)
    (hs : c.signer = some s) (hpr : p.registryAddress = some r)
    (h : p.tokenContract.wellFormed = true) :
    c.createAccount p = Except.ok (Submission.signerSend ⟨r, 0,
      CallData.createAccountData (resolvedImplementationAddress c p.implementationAddress)
        c.chainId p.tokenContract p.tokenId 0 CallData.initializeData⟩) := by
  cases hci : c.customImplementation <;>
    simp [TokenboundClient.createAccount, TokenboundClient.prepareCreateAccount,
      Functions.prepareCreateAccount, hs, hpr, hci, h, resolvedImplementationAddress]

/-- C9 amended, witness at a concrete signer client and registry override. -/
theorem createAccount_signer_branch_honors_registry_override_witness :
    TokenboundClient.createAccount ⟨1, true, some ⟨"signer"⟩, none, none⟩
        ⟨addrA, "3", none, some addrF⟩
      = Except.ok (Submission.signerSend ⟨addrF, 0,
          CallData.createAccountData erc6551AccountImplementationAddress 1 addrA "3" 0
            CallData.initializeData⟩) :=
  createAccount_signer_branch_honors_registry_override
    ⟨1, true, some ⟨"signer"⟩, none, none⟩ ⟨addrA, "3", none, some addrF⟩ addrF ⟨"signer"⟩
    rfl rfl (by decide)
